import Mathlib

/-!
Verification of the configuration-reconciliation and publishing layer of the
microstrain_inertial_driver_common repository.  The repository surface under
`src/` is the header `microstrain_config.h`, which declares the configuration
class, its capability flags (`supports_gnss1_` … `supports_imu_`), the
`DEFAULT_DATA_RATE = -1` sentinel, the event trigger/action string constants,
the per-receiver arrays of length `NUM_GNSS`, and the publisher-pool members.
The bodies of the operations are not under `src/`, so the operations below are
modelled from the specification's component design (§4.2–§4.7), faithful to
its words, while the data-model constants and flag layout follow the header.
-/

namespace Microstrain

/-- `DEFAULT_DATA_RATE` sentinel from `microstrain_config.h` line 35:
if a data rate is set to this, the data rate will be set to the default. -/
def DEFAULT_DATA_RATE : Int := -1

/-- Rate-resolution errors from spec §4.2 / §7. -/
inductive RateError
  | ExceedsNative
  | NonPositive
deriving DecidableEq

/-- Result of rate resolution: the integer decimation sent to the device and
the achieved rate reported back to the caller (spec §4.2). -/
structure Decimation where
  decimation : Int
  achievedRate : ℚ
deriving DecidableEq

/-- Modelled from the spec: `RateResolver.resolve` (§4.2); the implementation
body is not under `src/`, only the `DEFAULT_DATA_RATE` sentinel is.  If
`requested` is the "use default" sentinel, decimation = 1 at native rate;
fails with `NonPositive` if `requested ≤ 0` and not the sentinel; fails with
`ExceedsNative` if `requested > nativeRate`; otherwise decimation =
round(nativeRate / requested), with the achieved rate
nativeRate / decimation returned alongside. -/
def RateResolver.resolve (requested : Int) (nativeRate : Int) :
    Except RateError Decimation :=
  if requested = DEFAULT_DATA_RATE then
    .ok ⟨1, (nativeRate : ℚ)⟩
  else if requested ≤ 0 then
    .error .NonPositive
  else if nativeRate < requested then
    .error .ExceedsNative
  else
    let d : Int := round ((nativeRate : ℚ) / (requested : ℚ))
    .ok ⟨d, (nativeRate : ℚ) / (d : ℚ)⟩

/-- Device capability snapshot (spec §3 DeviceCapabilities); the boolean
layout mirrors the `supports_*_` flags declared in `microstrain_config.h`
lines 171–175, plus a per-subsystem device-native base rate. -/
structure DeviceCapabilities where
  supports_imu : Bool
  supports_gnss1 : Bool
  supports_gnss2 : Bool
  supports_rtk : Bool
  supports_filter : Bool
  imu_native_rate : Int
  gnss1_native_rate : Int
  gnss2_native_rate : Int
  rtk_native_rate : Int
  filter_native_rate : Int
deriving DecidableEq

/-- User-supplied settings relevant to resolution: per-subsystem enable flag
and rate request, plus the filter aiding flags declared in
`microstrain_config.h` lines 196 and 205 (spec §3 SubsystemConfig, §4.3). -/
structure UserConfig where
  enable_imu : Bool
  enable_gnss1 : Bool
  enable_gnss2 : Bool
  enable_rtk : Bool
  enable_filter : Bool
  imu_rate : Int
  gnss1_rate : Int
  gnss2_rate : Int
  rtk_rate : Int
  filter_rate : Int
  filter_enable_gnss_heading_aiding : Bool
  filter_enable_gnss_antenna_cal : Bool
deriving DecidableEq

/-- Configuration-resolution errors (spec §4.3 / §7). -/
inductive ConfigError
  | UnsupportedSubsystem (name : String)
  | InvalidDependency
  | RateResolution (e : RateError)
deriving DecidableEq

/-- One resolved per-subsystem configuration (spec §3 SubsystemConfig). -/
structure SubsystemConfig where
  name : String
  enabled : Bool
  decimation : Int
  achievedRate : ℚ
deriving DecidableEq

/-- The aggregate produced by configuration resolution (spec §4.3). -/
structure ResolvedConfig where
  subsystems : List SubsystemConfig
deriving DecidableEq

/-- The list of subsystems the user requests enabling that the capability
snapshot marks unsupported, in the spec's fixed dependency order
IMU → GNSS-1 → GNSS-2 → RTK → Filter (spec §4.3). -/
def requestedUnsupported (u : UserConfig) (c : DeviceCapabilities) :
    List String :=
  (if u.enable_imu && !c.supports_imu then ["IMU"] else []) ++
  (if u.enable_gnss1 && !c.supports_gnss1 then ["GNSS-1"] else []) ++
  (if u.enable_gnss2 && !c.supports_gnss2 then ["GNSS-2"] else []) ++
  (if u.enable_rtk && !c.supports_rtk then ["RTK"] else []) ++
  (if u.enable_filter && !c.supports_filter then ["Filter"] else [])

/-- Modelled from the spec: the subsystem-support validation stage of
`ConfigurationResolver.resolve` (§4.3); the implementation body is not under
`src/`.  Walks the subsystems in the fixed dependency order and reports the
first enabled-but-unsupported one. -/
def firstUnsupported (u : UserConfig) (c : DeviceCapabilities) :
    Option String :=
  if u.enable_imu && !c.supports_imu then some "IMU"
  else if u.enable_gnss1 && !c.supports_gnss1 then some "GNSS-1"
  else if u.enable_gnss2 && !c.supports_gnss2 then some "GNSS-2"
  else if u.enable_rtk && !c.supports_rtk then some "RTK"
  else if u.enable_filter && !c.supports_filter then some "Filter"
  else none

/-- Modelled from the spec: the filter-aiding cross-validation of
`ConfigurationResolver.resolve` (§4.3); the implementation body is not under
`src/`.  `filter_enable_gnss_heading_aiding` requires dual-GNSS capability
and `filter_enable_gnss_antenna_cal_` requires RTK capability. -/
def dependencyViolation (u : UserConfig) (c : DeviceCapabilities) : Bool :=
  (u.filter_enable_gnss_heading_aiding && !c.supports_gnss2) ||
  (u.filter_enable_gnss_antenna_cal && !c.supports_rtk)

/-- Rate resolution for one subsystem, wrapping `RateError` as
`ConfigError.RateResolution` (spec §4.3).  A disabled subsystem resolves to a
disabled entry without consulting the rate resolver. -/
def resolveSubsystem (name : String) (enabled : Bool)
    (rate nativeRate : Int) : Except ConfigError SubsystemConfig :=
  if enabled then
    match RateResolver.resolve rate nativeRate with
    | .ok d => .ok ⟨name, true, d.decimation, d.achievedRate⟩
    | .error e => .error (.RateResolution e)
  else
    .ok ⟨name, false, 0, 0⟩

/-- The rate-resolution stage over all subsystems in the fixed order,
entered only after validation passes (spec §4.3). -/
def resolveRates (u : UserConfig) (c : DeviceCapabilities) :
    Except ConfigError ResolvedConfig := do
  let imu ← resolveSubsystem "IMU" u.enable_imu u.imu_rate c.imu_native_rate
  let g1 ← resolveSubsystem "GNSS-1" u.enable_gnss1 u.gnss1_rate
      c.gnss1_native_rate
  let g2 ← resolveSubsystem "GNSS-2" u.enable_gnss2 u.gnss2_rate
      c.gnss2_native_rate
  let rtk ← resolveSubsystem "RTK" u.enable_rtk u.rtk_rate c.rtk_native_rate
  let flt ← resolveSubsystem "Filter" u.enable_filter u.filter_rate
      c.filter_native_rate
  .ok ⟨[imu, g1, g2, rtk, flt]⟩

/-- Modelled from the spec: `ConfigurationResolver.resolve` (§4.3); the
implementation body is not under `src/`.  Pure function: capability
validation first (hard failure with `UnsupportedSubsystem`, never a silent
downgrade), then the filter-aiding dependency cross-checks, then rate
resolution via `RateResolver`. -/
def ConfigurationResolver.resolve (u : UserConfig) (c : DeviceCapabilities) :
    Except ConfigError ResolvedConfig :=
  match firstUnsupported u c with
  | some name => .error (.UnsupportedSubsystem name)
  | none =>
    if dependencyViolation u c then .error .InvalidDependency
    else resolveRates u c

/-- A device configuration command: subsystem identity plus the decimation
sent (spec §4.4). -/
structure DeviceCommand where
  subsystem : String
  decimation : Int
deriving DecidableEq

/-- Modelled from the spec: the configuration pass (§4.3–§4.4, §7) — device
commands are issued only after resolution succeeds, so validation errors
abort the pass with zero commands issued; the implementation body is not
under `src/`. -/
def configurePass (u : UserConfig) (c : DeviceCapabilities) :
    Except ConfigError ResolvedConfig × List DeviceCommand :=
  match ConfigurationResolver.resolve u c with
  | .ok r => (.ok r, (r.subsystems.filter (·.enabled)).map
      fun s => ⟨s.name, s.decimation⟩)
  | .error e => (.error e, [])

/-- A live output channel (spec §3 ChannelDescriptor / Channel): identifier,
owning data-field identifier, client-side decimation factor, enabled flag,
and the skip counter used for client-side decimation. -/
structure Channel where
  id : Nat
  fieldId : Nat
  decimation : Nat
  enabled : Bool
  counter : Nat
deriving DecidableEq

/-- The decimations of the enabled channels backed by a given data
descriptor (spec §4.4). -/
def enabledDecimations (channels : List Channel) (fieldId : Nat) :
    List Nat :=
  (channels.filter (fun ch => ch.enabled && ch.fieldId == fieldId)).map
    (·.decimation)

/-- Modelled from the spec: the per-descriptor device-side decimation chosen
by `DataRateCoordinator` (§4.4); the body of `configureDataRates` is not
under `src/`.  Sends the minimum decimation across all enabled channels for
the descriptor; `none` means the descriptor's streaming is disabled entirely
because every channel for it is disabled. -/
def deviceDecimation (channels : List Channel) (fieldId : Nat) :
    Option Nat :=
  match enabledDecimations channels fieldId with
  | [] => none
  | d :: ds => some (ds.foldl min d)

/-- Modelled from the spec: the per-channel step of `PublisherPool.dispatch`
(§4.6); the body of `MIPPublisherPool` is not under `src/`.  For an enabled
channel mapped to the delivered field, the skip counter is incremented on
every delivered record; the channel publishes exactly when the counter
reaches the channel's decimation factor, and the counter then resets.
Returns the updated channel and whether it published this record. -/
def PublisherPool.dispatchChannel (fieldId : Nat) (ch : Channel) :
    Channel × Bool :=
  if ch.enabled && ch.fieldId == fieldId then
    let c := ch.counter + 1
    if ch.decimation ≤ c then ({ ch with counter := 0 }, true)
    else ({ ch with counter := c }, false)
  else
    (ch, false)

/-- Modelled from the spec: `PublisherPool.dispatch` over the whole channel
set (§4.6, §7); the body is not under `src/`.  Total function: telemetry
dispatch never raises configuration errors; a field identifier no channel is
mapped to simply publishes nothing.  Returns the updated channels and the
identifiers of the channels that published this record. -/
def PublisherPool.dispatch (channels : List Channel) (fieldId : Nat) :
    List Channel × List Nat :=
  match channels with
  | [] => ([], [])
  | ch :: rest =>
    let (ch2, pub) := PublisherPool.dispatchChannel fieldId ch
    let (rest2, pubs) := PublisherPool.dispatch rest fieldId
    (ch2 :: rest2, if pub then ch2.id :: pubs else pubs)

/-- Dispatch `n` consecutive records for one field, collecting the per-record
publish logs (spec §8's synthetic-record experiment). -/
def dispatchRecords (channels : List Channel) (fieldId : Nat) :
    Nat → List Channel × List (List Nat)
  | 0 => (channels, [])
  | n + 1 =>
    let (c1, pubs) := PublisherPool.dispatch channels fieldId
    let (c2, logs) := dispatchRecords c1 fieldId n
    (c2, pubs :: logs)

/-- How many records a given channel published across a run's logs. -/
def publishCount (id : Nat) (logs : List (List Nat)) : Nat :=
  (logs.map (fun l => l.count id)).sum

/-- Event trigger types, from the string constants in
`microstrain_config.h` lines 37–38. -/
inductive TriggerType
  | GPIOTrigger
  | THRESHOLD
deriving DecidableEq

/-- Event action types, from the string constants in
`microstrain_config.h` lines 45–46. -/
inductive ActionType
  | GPIOOutput
  | MESSAGE
deriving DecidableEq

/-- GPIO action modes, from the string constants in
`microstrain_config.h` lines 48–53. -/
inductive ActionGpioMode
  | DISABLED
  | ACTIVE_HIGH
  | ACTIVE_LOW
  | ONESHOT_HIGH
  | ONESHOT_LOW
  | TOGGLE
deriving DecidableEq

/-- An event definition: a trigger paired with an action (spec §3
EventConfig, restricted to the GPIO-action mode field the claims need). -/
structure EventDef where
  trigger : TriggerType
  action : ActionType
  actionMode : ActionGpioMode
deriving DecidableEq

/-- States of the per-event state machine (spec §4.7). -/
inductive EventState
  | Unconfigured
  | Validated
  | Applied
  | Active
  | Rejected
deriving DecidableEq

/-- Event-configuration errors (spec §4.7 / §7). -/
inductive EventError
  | IncompatibleTriggerAction
  | DeviceRejected
deriving DecidableEq

/-- The device capability table for trigger/action combinations, consulted by
validation (spec §3: checked against CapabilityProbe, not assumed). -/
structure EventCompatTable where
  supported : TriggerType → ActionType → ActionGpioMode → Bool

/-- Modelled from the spec: the `EventConfigurator` state machine run for one
event definition (§4.7); the body of `configureEvents` is not under `src/`.
`Unconfigured → Validated` on the trigger/action compatibility check, else
`Rejected` with `IncompatibleTriggerAction` and no command sent;
`Validated → Applied` sends the command to the device; `Applied → Active` on
acknowledgment, `Rejected` with `DeviceRejected` on nack.  Returns the
sequence of states visited, the error if any, and the commands sent. -/
def EventConfigurator.run (table : EventCompatTable) (e : EventDef)
    (deviceAck : Bool) :
    List EventState × Option EventError × List EventDef :=
  if table.supported e.trigger e.action e.actionMode then
    if deviceAck then
      ([.Unconfigured, .Validated, .Applied, .Active], none, [e])
    else
      ([.Unconfigured, .Validated, .Applied, .Rejected],
        some .DeviceRejected, [e])
  else
    ([.Unconfigured, .Rejected], some .IncompatibleTriggerAction, [])

/-- `NUM_GNSS`: the number of GNSS receivers.  Modelled from the spec: the
defining header `microstrain_defs.h` is not under `src/`; the spec's
subsystems are GNSS-1 and GNSS-2 (§2, §3), so there are two receivers. -/
def NUM_GNSS : Nat := 2

/-- The per-GNSS-receiver state arrays of `MicrostrainConfig`
(`gnss_frame_id_`, `gnss_antenna_offset_`, `publish_gnss_` and the
per-receiver publisher pools, `microstrain_config.h` lines 210, 248, 225,
284–288), modelled as lists whose well-formed length is `NUM_GNSS`. -/
structure GnssArrays where
  gnss_frame_id : List String
  gnss_antenna_offset : List (List ℚ)
  publish_gnss : List Bool
  gnss_pub_map : List Nat
deriving DecidableEq

/-- Well-formedness: every per-receiver array has length `NUM_GNSS`, as
declared by the fixed-size array declarations in the header. -/
def GnssArrays.wf (s : GnssArrays) : Prop :=
  s.gnss_frame_id.length = NUM_GNSS ∧
  s.gnss_antenna_offset.length = NUM_GNSS ∧
  s.publish_gnss.length = NUM_GNSS ∧
  s.gnss_pub_map.length = NUM_GNSS

/-- The per-receiver data `configureGNSS` works with for receiver
`gnss_id`. -/
structure GnssReceiverView where
  frame_id : String
  antenna_offset : List ℚ
  publish : Bool
  pool : Nat
deriving DecidableEq

/-- Modelled from the spec: the array accesses of
`configureGNSS(node, gnss_id)` (header lines 115–121); the body is not under
`src/`.  Every per-receiver array is read only at index `gnss_id`, through a
bounds-checked lookup, so the function succeeds exactly when every access is
in bounds. -/
def configureGNSS (s : GnssArrays) (gnss_id : Nat) :
    Option GnssReceiverView := do
  let f ← s.gnss_frame_id.get? gnss_id
  let o ← s.gnss_antenna_offset.get? gnss_id
  let p ← s.publish_gnss.get? gnss_id
  let m ← s.gnss_pub_map.get? gnss_id
  pure ⟨f, o, p, m⟩

/-- C2: with the `DEFAULT_DATA_RATE` sentinel, `RateResolver.resolve`
returns decimation 1 at the native rate (not `RateError.NonPositive`, even
though the sentinel is negative); otherwise, for every `nativeRate > 0` and
every `requested` in `(0, nativeRate]`, it succeeds with decimation
`round(nativeRate / requested) ≥ 1` — exact divisibility is not required —
and returns the achieved rate `nativeRate / decimation` alongside. -/
theorem claim_C2 :
    (∀ nativeRate : Int,
      RateResolver.resolve DEFAULT_DATA_RATE nativeRate =
        .ok ⟨1, (nativeRate : ℚ)⟩) ∧
    (∀ requested nativeRate : Int, 0 < nativeRate → 0 < requested →
      requested ≤ nativeRate →
      ∃ d : Int, d = round ((nativeRate : ℚ) / (requested : ℚ)) ∧ 1 ≤ d ∧
        RateResolver.resolve requested nativeRate =
          .ok ⟨d, (nativeRate : ℚ) / (d : ℚ)⟩) := by
  constructor
  · intro nativeRate
    simp [RateResolver.resolve]
  · intro requested nativeRate hn hr hle
    have h1 : requested ≠ DEFAULT_DATA_RATE := by
      simp only [DEFAULT_DATA_RATE]; omega
    have h2 : ¬ requested ≤ 0 := by omega
    have h3 : ¬ nativeRate < requested := by omega
    have hx : (1 : ℚ) ≤ (nativeRate : ℚ) / (requested : ℚ) := by
      rw [le_div_iff₀ (by exact_mod_cast hr)]
      simpa using (by exact_mod_cast hle : (requested : ℚ) ≤ (nativeRate : ℚ))
    refine ⟨round ((nativeRate : ℚ) / (requested : ℚ)), rfl, ?_, ?_⟩
    · rw [round_eq, Int.le_floor]
      push_cast
      linarith
    · simp [RateResolver.resolve, h1, h2, h3]

/-- C2 witness: the sentinel resolves to decimation 1 at native rate 100,
and requesting 5 Hz against a native 10 Hz succeeds with a round-based
decimation of at least 1 and the achieved rate reported alongside. -/
theorem claim_C2_witness :
    (RateResolver.resolve DEFAULT_DATA_RATE 100 = .ok ⟨1, (100 : ℚ)⟩) ∧
    ∃ d : Int, d = round ((10 : ℚ) / (5 : ℚ)) ∧ 1 ≤ d ∧
      RateResolver.resolve 5 10 = .ok ⟨d, (10 : ℚ) / (d : ℚ)⟩ :=
  ⟨claim_C2.1 100,
   claim_C2.2 5 10 (by decide) (by decide) (by decide)⟩

/-- C3: for a positive native rate, `RateResolver.resolve` fails with
`ExceedsNative` exactly when the non-sentinel request exceeds the native
rate, fails with `NonPositive` exactly when the request is non-positive and
not the sentinel, and these are its only failure cases. -/
theorem claim_C3 : ∀ requested nativeRate : Int, 0 < nativeRate →
    (RateResolver.resolve requested nativeRate = .error .ExceedsNative ↔
      requested ≠ DEFAULT_DATA_RATE ∧ nativeRate < requested) ∧
    (RateResolver.resolve requested nativeRate = .error .NonPositive ↔
      requested ≠ DEFAULT_DATA_RATE ∧ requested ≤ 0) ∧
    ((∃ e, RateResolver.resolve requested nativeRate = .error e) ↔
      requested ≠ DEFAULT_DATA_RATE ∧
        (requested ≤ 0 ∨ nativeRate < requested)) := by
  intro requested nativeRate hn
  by_cases h1 : requested = DEFAULT_DATA_RATE
  · subst h1
    simp [RateResolver.resolve]
  · by_cases h2 : requested ≤ 0
    · have h3 : ¬ nativeRate < requested := by omega
      simp [RateResolver.resolve, h1, h2, h3]
    · by_cases h4 : nativeRate < requested
      · simp [RateResolver.resolve, h1, h2, h4]
      · simp [RateResolver.resolve, h1, h2, h4]

/-- C3 witness: against native rate 10, a request of 20 fails with
`ExceedsNative` and a request of 0 fails with `NonPositive`. -/
theorem claim_C3_witness :
    (RateResolver.resolve 20 10 = .error .ExceedsNative) ∧
    (RateResolver.resolve 0 10 = .error .NonPositive) :=
  ⟨((claim_C3 20 10 (by decide)).1).mpr ⟨by decide, by decide⟩,
   ((claim_C3 0 10 (by decide)).2.1).mpr ⟨by decide, by decide⟩⟩

lemma firstUnsupported_spec (u : UserConfig) (c : DeviceCapabilities) :
    (requestedUnsupported u c = [] ∧ firstUnsupported u c = none) ∨
    (∃ n, firstUnsupported u c = some n ∧
      n ∈ requestedUnsupported u c) := by
  unfold firstUnsupported requestedUnsupported
  split_ifs <;> simp_all

/-- C1: whenever the user requests enabling any subsystem that the
capability snapshot marks unsupported, configuration resolution fails with
`ConfigError.UnsupportedSubsystem` naming such a subsystem, and the
configuration pass issues zero device commands: no device state changes
before the failure is surfaced. -/
theorem claim_C1 : ∀ (u : UserConfig) (c : DeviceCapabilities),
    requestedUnsupported u c ≠ [] →
    ∃ name, name ∈ requestedUnsupported u c ∧
      ConfigurationResolver.resolve u c =
        .error (.UnsupportedSubsystem name) ∧
      (configurePass u c).2 = [] := by
  intro u c h
  rcases firstUnsupported_spec u c with ⟨he, _⟩ | ⟨n, hf, hm⟩
  · exact absurd he h
  · refine ⟨n, hm, ?_, ?_⟩
    · simp [ConfigurationResolver.resolve, hf]
    · simp [configurePass, ConfigurationResolver.resolve, hf]

/-- C1 witness: enabling RTK on a device without RTK support fails with
`UnsupportedSubsystem` naming an unsupported subsystem and issues zero
commands. -/
theorem claim_C1_witness :
    ∃ name, name ∈ requestedUnsupported
        ⟨false, false, false, true, false, 0, 0, 0, 0, 0, false, false⟩
        ⟨true, true, true, false, true, 100, 10, 10, 1, 100⟩ ∧
      ConfigurationResolver.resolve
        ⟨false, false, false, true, false, 0, 0, 0, 0, 0, false, false⟩
        ⟨true, true, true, false, true, 100, 10, 10, 1, 100⟩ =
        .error (.UnsupportedSubsystem name) ∧
      (configurePass
        ⟨false, false, false, true, false, 0, 0, 0, 0, 0, false, false⟩
        ⟨true, true, true, false, true, 100, 10, 10, 1, 100⟩).2 = [] :=
  claim_C1 _ _ (by decide)

lemma resolveSubsystem_error {name : String} {enabled : Bool}
    {rate native : Int} {e : ConfigError}
    (h : resolveSubsystem name enabled rate native = .error e) :
    ∃ re, e = ConfigError.RateResolution re := by
  unfold resolveSubsystem at h
  split at h
  · split at h
    · simp at h
    · rename_i re hre
      exact ⟨re, by simpa using h.symm⟩
  · simp at h

lemma exceptBindError {α β ε : Type} {x : Except ε α} {f : α → Except ε β}
    {e : ε} (h : x >>= f = .error e) :
    x = .error e ∨ ∃ a, x = .ok a ∧ f a = .error e := by
  cases x with
  | error e2 =>
    left
    have : e2 = e := by simpa [Bind.bind, Except.bind] using h
    rw [this]
  | ok a =>
    right
    exact ⟨a, rfl, by simpa [Bind.bind, Except.bind] using h⟩

lemma resolveRates_error {u : UserConfig} {c : DeviceCapabilities}
    {e : ConfigError} (h : resolveRates u c = .error e) :
    ∃ re, e = ConfigError.RateResolution re := by
  unfold resolveRates at h
  rcases exceptBindError h with h1 | ⟨a1, _, h1⟩
  · exact resolveSubsystem_error h1
  rcases exceptBindError h1 with h2 | ⟨a2, _, h2⟩
  · exact resolveSubsystem_error h2
  rcases exceptBindError h2 with h3 | ⟨a3, _, h3⟩
  · exact resolveSubsystem_error h3
  rcases exceptBindError h3 with h4 | ⟨a4, _, h4⟩
  · exact resolveSubsystem_error h4
  rcases exceptBindError h4 with h5 | ⟨a5, _, h5⟩
  · exact resolveSubsystem_error h5
  · simp at h5

/-- C6: once every enabled subsystem is supported, resolution fails with
`ConfigError.InvalidDependency` if `filter_enable_gnss_heading_aiding` is
set without dual-GNSS capability or `filter_enable_gnss_antenna_cal_` is set
without RTK capability; and when neither dependency is violated, resolution
never fails with `InvalidDependency`. -/
theorem claim_C6 : ∀ (u : UserConfig) (c : DeviceCapabilities),
    firstUnsupported u c = none →
    (((u.filter_enable_gnss_heading_aiding = true ∧
        c.supports_gnss2 = false) ∨
      (u.filter_enable_gnss_antenna_cal = true ∧
        c.supports_rtk = false)) →
      ConfigurationResolver.resolve u c = .error .InvalidDependency) ∧
    (dependencyViolation u c = false →
      ConfigurationResolver.resolve u c ≠ .error .InvalidDependency) := by
  intro u c hnone
  constructor
  · intro hviol
    have hdep : dependencyViolation u c = true := by
      rcases hviol with ⟨ha, hb⟩ | ⟨ha, hb⟩ <;>
        simp [dependencyViolation, ha, hb]
    simp [ConfigurationResolver.resolve, hnone, hdep]
  · intro hdep heq
    have : resolveRates u c = .error .InvalidDependency := by
      simpa [ConfigurationResolver.resolve, hnone, hdep] using heq
    obtain ⟨re, hre⟩ := resolveRates_error this
    exact ConfigError.noConfusion hre

/-- C6 witness: with no unsupported-subsystem failure ahead of it, setting
`filter_enable_gnss_heading_aiding` on a device without dual-GNSS capability
makes resolution fail with `InvalidDependency`. -/
theorem claim_C6_witness :
    ConfigurationResolver.resolve
      ⟨false, false, false, false, false, 0, 0, 0, 0, 0, true, false⟩
      ⟨true, true, false, true, true, 100, 10, 10, 1, 100⟩ =
      .error .InvalidDependency :=
  (claim_C6 _ _ (by decide)).1 (Or.inl ⟨rfl, rfl⟩)

/-- C7: `ConfigurationResolver.resolve` is a deterministic pure function of
its two inputs: identical user configuration and capability snapshot yield
identical results, with no hidden state. -/
theorem claim_C7 : ∀ (u1 u2 : UserConfig) (c1 c2 : DeviceCapabilities),
    u1 = u2 → c1 = c2 →
    ConfigurationResolver.resolve u1 c1 =
      ConfigurationResolver.resolve u2 c2 := by
  intro u1 u2 c1 c2 hu hc
  rw [hu, hc]

/-- C7 witness: two invocations on one concrete input agree. -/
theorem claim_C7_witness :
    ConfigurationResolver.resolve
      ⟨true, true, false, false, true, -1, 5, 0, 0, 50, false, false⟩
      ⟨true, true, false, false, true, 100, 10, 10, 1, 100⟩ =
    ConfigurationResolver.resolve
      ⟨true, true, false, false, true, -1, 5, 0, 0, 50, false, false⟩
      ⟨true, true, false, false, true, 100, 10, 10, 1, 100⟩ :=
  claim_C7 _ _ _ _ rfl rfl

lemma foldlMinMem : ∀ (ds : List Nat) (d : Nat),
    ds.foldl min d = d ∨ ds.foldl min d ∈ ds := by
  intro ds
  induction ds with
  | nil => intro d; left; rfl
  | cons x xs ih =>
    intro d
    simp only [List.foldl]
    rcases ih (min d x) with h | h
    · rcases min_choice d x with hm | hm
      · left; rw [h, hm]
      · right; rw [h, hm]; exact List.mem_cons_self x xs
    · right; exact List.mem_cons_of_mem x h

lemma foldlMinLe : ∀ (ds : List Nat) (d : Nat),
    ds.foldl min d ≤ d ∧ ∀ x ∈ ds, ds.foldl min d ≤ x := by
  intro ds
  induction ds with
  | nil => intro d; exact ⟨le_refl d, by simp⟩
  | cons y ys ih =>
    intro d
    simp only [List.foldl]
    refine ⟨le_trans (ih (min d y)).1 (min_le_left d y), ?_⟩
    intro x hx
    rcases List.mem_cons.mp hx with hx | hx
    · rw [hx]; exact le_trans (ih (min d y)).1 (min_le_right d y)
    · exact (ih (min d y)).2 x hx

/-- C4: the decimation the coordinator sends for a descriptor is the minimum
decimation over all enabled channels mapped to it (the fastest enabled
channel sets the device stream rate), and the descriptor's device-side
streaming is disabled (`none`) exactly when every channel for it is
disabled. -/
theorem claim_C4 : ∀ (channels : List Channel) (fieldId : Nat),
    (∀ m, deviceDecimation channels fieldId = some m →
      m ∈ enabledDecimations channels fieldId ∧
      ∀ d ∈ enabledDecimations channels fieldId, m ≤ d) ∧
    (enabledDecimations channels fieldId = [] ↔
      deviceDecimation channels fieldId = none) := by
  intro channels fieldId
  unfold deviceDecimation
  cases hd : enabledDecimations channels fieldId with
  | nil => simp
  | cons d ds =>
    refine ⟨?_, by simp⟩
    intro m hm
    have hm2 : m = ds.foldl min d := by simpa using hm.symm
    subst hm2
    constructor
    · rcases foldlMinMem ds d with h | h
      · rw [h]; exact List.mem_cons_self d ds
      · exact List.mem_cons_of_mem d h
    · intro x hx
      rcases List.mem_cons.mp hx with hx | hx
      · rw [hx]; exact (foldlMinLe ds d).1
      · exact (foldlMinLe ds d).2 x hx

/-- C4 witness: with enabled channels at decimations 4 and 2 and a disabled
channel at 9 on field 5, the device-side decimation is 2, which belongs to
the enabled decimations and is a lower bound of them. -/
theorem claim_C4_witness :
    2 ∈ enabledDecimations
        [⟨1, 5, 4, true, 0⟩, ⟨2, 5, 2, true, 0⟩, ⟨3, 5, 9, false, 0⟩] 5 ∧
    ∀ d ∈ enabledDecimations
        [⟨1, 5, 4, true, 0⟩, ⟨2, 5, 2, true, 0⟩, ⟨3, 5, 9, false, 0⟩] 5,
      2 ≤ d :=
  (claim_C4 [⟨1, 5, 4, true, 0⟩, ⟨2, 5, 2, true, 0⟩, ⟨3, 5, 9, false, 0⟩]
    5).1 2 (by decide)

/-- C5: the per-channel skip counter is incremented on every record
delivered for the channel's field, the channel publishes exactly when the
counter reaches its decimation factor, and the counter then resets; as a
consequence, a field delivered 100 times to two enabled channels with
decimations 2 and 10 publishes exactly 50 records on the first and exactly
10 on the second. -/
theorem claim_C5 :
    (∀ (fieldId : Nat) (ch : Channel),
      (PublisherPool.dispatchChannel fieldId ch).2 =
        (ch.enabled && ch.fieldId == fieldId &&
          decide (ch.decimation ≤ ch.counter + 1))) ∧
    (∀ (fieldId : Nat) (ch : Channel),
      (PublisherPool.dispatchChannel fieldId ch).1.counter =
        if ch.enabled && ch.fieldId == fieldId then
          (if ch.decimation ≤ ch.counter + 1 then 0 else ch.counter + 1)
        else ch.counter) ∧
    publishCount 1
      (dispatchRecords [⟨1, 7, 2, true, 0⟩, ⟨2, 7, 10, true, 0⟩] 7 100).2
      = 50 ∧
    publishCount 2
      (dispatchRecords [⟨1, 7, 2, true, 0⟩, ⟨2, 7, 10, true, 0⟩] 7 100).2
      = 10 := by
  refine ⟨?_, ?_, by decide, by decide⟩
  · intro fieldId ch
    by_cases he : (ch.enabled && ch.fieldId == fieldId) = true
    · by_cases hd : ch.decimation ≤ ch.counter + 1
      · simp [PublisherPool.dispatchChannel, he, hd]
      · simp [PublisherPool.dispatchChannel, he, hd]
    · simp [PublisherPool.dispatchChannel, he]
  · intro fieldId ch
    by_cases he : (ch.enabled && ch.fieldId == fieldId) = true
    · by_cases hd : ch.decimation ≤ ch.counter + 1
      · simp [PublisherPool.dispatchChannel, he, hd]
      · simp [PublisherPool.dispatchChannel, he, hd]
    · simp [PublisherPool.dispatchChannel, he]

/-- C9: dispatch on a field identifier no channel is mapped to publishes
nothing and leaves every channel untouched; the dispatch function is total,
so no configuration error can be raised at runtime. -/
theorem claim_C9 : ∀ (channels : List Channel) (fieldId : Nat),
    (∀ ch ∈ channels, ch.fieldId ≠ fieldId) →
    PublisherPool.dispatch channels fieldId = (channels, []) := by
  intro channels fieldId h
  induction channels with
  | nil => rfl
  | cons ch rest ih =>
    have hch : ch.fieldId ≠ fieldId := h ch (List.mem_cons_self ch rest)
    have hbeq : (ch.fieldId == fieldId) = false := by
      simpa using hch
    have hrest := ih fun c hc => h c (List.mem_cons_of_mem ch hc)
    simp [PublisherPool.dispatch, PublisherPool.dispatchChannel, hbeq,
      hrest]

/-- C9 witness: a record for field 99, which no channel is mapped to, is
dispatched to zero channels and changes no counter. -/
theorem claim_C9_witness :
    PublisherPool.dispatch [⟨1, 3, 2, true, 0⟩, ⟨2, 4, 5, true, 3⟩] 99 =
      ([⟨1, 3, 2, true, 0⟩, ⟨2, 4, 5, true, 3⟩], []) :=
  claim_C9 _ 99 (by decide)

/-- C8: an event definition pairing a THRESHOLD trigger with a GPIO ONESHOT
action, when the device capability table marks the combination unsupported,
transitions `Unconfigured → Rejected` with
`EventError.IncompatibleTriggerAction`, never visits the `Applied` state,
and no event-configuration command for it is sent to the device. -/
theorem claim_C8 : ∀ (table : EventCompatTable) (e : EventDef)
    (deviceAck : Bool),
    e.trigger = .THRESHOLD → e.action = .GPIOOutput →
    (e.actionMode = .ONESHOT_HIGH ∨ e.actionMode = .ONESHOT_LOW) →
    table.supported e.trigger e.action e.actionMode = false →
    (EventConfigurator.run table e deviceAck).1 =
        [.Unconfigured, .Rejected] ∧
    (EventConfigurator.run table e deviceAck).2.1 =
        some .IncompatibleTriggerAction ∧
    EventState.Applied ∉ (EventConfigurator.run table e deviceAck).1 ∧
    (EventConfigurator.run table e deviceAck).2.2 = [] := by
  intro table e deviceAck _ _ _ hunsup
  simp [EventConfigurator.run, hunsup]

/-- C8 witness: a THRESHOLD trigger with a GPIO ONESHOT_HIGH action against
a capability table rejecting every combination is rejected with
`IncompatibleTriggerAction`, never reaches `Applied`, and sends nothing. -/
theorem claim_C8_witness :
    (EventConfigurator.run ⟨fun _ _ _ => false⟩
        ⟨.THRESHOLD, .GPIOOutput, .ONESHOT_HIGH⟩ true).1 =
      [.Unconfigured, .Rejected] ∧
    (EventConfigurator.run ⟨fun _ _ _ => false⟩
        ⟨.THRESHOLD, .GPIOOutput, .ONESHOT_HIGH⟩ true).2.1 =
      some .IncompatibleTriggerAction ∧
    EventState.Applied ∉ (EventConfigurator.run ⟨fun _ _ _ => false⟩
        ⟨.THRESHOLD, .GPIOOutput, .ONESHOT_HIGH⟩ true).1 ∧
    (EventConfigurator.run ⟨fun _ _ _ => false⟩
        ⟨.THRESHOLD, .GPIOOutput, .ONESHOT_HIGH⟩ true).2.2 = [] :=
  claim_C8 _ _ true rfl rfl (Or.inl rfl) rfl

/-- C10: every per-receiver array of a well-formed configuration state has
length `NUM_GNSS`, and `configureGNSS` accesses those arrays only at index
`gnss_id`; under the precondition `gnss_id < NUM_GNSS` every access is in
bounds and the operation succeeds, while any out-of-range `gnss_id` makes
the bounds-checked accesses fail. -/
theorem claim_C10 : ∀ (s : GnssArrays) (gnss_id : Nat), s.wf →
    (gnss_id < NUM_GNSS → (configureGNSS s gnss_id).isSome = true) ∧
    (NUM_GNSS ≤ gnss_id → configureGNSS s gnss_id = none) := by
  intro s gnss_id hwf
  obtain ⟨h1, h2, h3, h4⟩ := hwf
  constructor
  · intro hlt
    have ha1 := List.getElem?_eq_getElem (l := s.gnss_frame_id)
      (h1 ▸ hlt)
    have ha2 := List.getElem?_eq_getElem (l := s.gnss_antenna_offset)
      (h2 ▸ hlt)
    have ha3 := List.getElem?_eq_getElem (l := s.publish_gnss)
      (h3 ▸ hlt)
    have ha4 := List.getElem?_eq_getElem (l := s.gnss_pub_map)
      (h4 ▸ hlt)
    simp [configureGNSS, ha1, ha2, ha3, ha4]
  · intro hge
    have ha1 : s.gnss_frame_id[gnss_id]? = none :=
      List.getElem?_eq_none (by omega)
    simp [configureGNSS, ha1]

/-- C10 witness: with both per-receiver arrays filled to length `NUM_GNSS`,
configuring receiver 1 succeeds, and receiver index 2 is out of bounds. -/
theorem claim_C10_witness :
    ((configureGNSS ⟨["gnss1", "gnss2"], [[0], [1]], [true, false],
        [10, 11]⟩ 1).isSome = true) ∧
    (configureGNSS ⟨["gnss1", "gnss2"], [[0], [1]], [true, false],
        [10, 11]⟩ 2 = none) :=
  ⟨(claim_C10 ⟨["gnss1", "gnss2"], [[0], [1]], [true, false], [10, 11]⟩ 1
      ⟨rfl, rfl, rfl, rfl⟩).1 (by decide),
   (claim_C10 ⟨["gnss1", "gnss2"], [[0], [1]], [true, false], [10, 11]⟩ 2
      ⟨rfl, rfl, rfl, rfl⟩).2 (by decide)⟩

end Microstrain
